import Mathlib

/-!
Shallow embedding of `src/main.py` (a Letterboxd-watchlist → TMDB streaming
availability aggregator) and proofs about the claims of its specification.

Network responses are modelled as environments (functions from request
parameters to response data); Python exceptions are modelled explicitly:
a function that can raise returns `Except PyError _`, and the watchlist
traversal records the exception it would raise in its `err` field.
-/

set_option autoImplicit false

namespace WTW

/-- Python exceptions that the embedded TMDB code can raise. -/
inductive PyError where
  | keyError
  | indexError
  deriving DecidableEq, Repr

/-- Exceptions that can abort the watchlist traversal: `typeError` models
`BeautifulSoup(None, "html.parser")` raising `TypeError` when `get_page`
returned `None`; `attributeError` models the count-heading parse failing
(`soup.find(...)` returning `None`, or the `int(...)` parse failing);
`pyErr e` is an exception propagated out of a per-title TMDB call. -/
inductive RunError where
  | typeError
  | attributeError
  | pyErr (e : PyError)
  deriving DecidableEq, Repr

/-- One entry of the `results` list of a TMDB search response.
`id = none` models the `"id"` key being absent from the JSON object. -/
structure SearchResult where
  id : Option Nat
  deriving DecidableEq, Repr

/-- A TMDB search response: HTTP status code plus the decoded JSON body.
`results = none` models the `"results"` key being absent. -/
structure SearchResponse where
  status : Nat
  results : Option (List SearchResult)
  deriving DecidableEq, Repr

/-- One entry of a `flatrate` list; `provider_name = none` models the
`"provider_name"` key being absent. -/
structure ProviderEntry where
  provider_name : Option String
  deriving DecidableEq, Repr

/-- The per-country object of a watch-providers response; `flatrate = none`
models the `"flatrate"` key being absent. -/
structure CountryOffers where
  flatrate : Option (List ProviderEntry)
  deriving DecidableEq, Repr

/-- A TMDB watch-providers response. The `results` JSON object is modelled
as an association list from country code to offers; `results = none` models
the `"results"` key being absent. -/
structure ProvidersResponse where
  status : Nat
  results : Option (List (String × CountryOffers))
  deriving DecidableEq, Repr

/-- The TMDB network environment: the country the `TMDB` object was
constructed with, and the response each endpoint would return
(`searchResp title` for `search/movie?query=title`,
`providersResp movie_id` for `movie/movie_id/watch/providers`). -/
structure TMDBEnv where
  country : String
  searchResp : String → SearchResponse
  providersResp : Nat → ProvidersResponse

/-- The `Movie` class: a title and the list of platforms it is available on. -/
structure Movie where
  title : String
  platforms : List String
  deriving DecidableEq, Repr

/-- The `Movie.available` property: `len(self.platforms) > 0`. -/
def Movie.available (m : Movie) : Bool :=
  m.platforms.length > 0

/-- `TMDB.get_movie_id`. On a non-200 status it logs and returns `None`
(`Except.ok none`); on a 200 status it evaluates
`response.json()["results"][0]["id"]` with no exception handler, so a
missing `"results"` key raises `KeyError`, an empty results list raises
`IndexError`, and a missing `"id"` key raises `KeyError`. -/
def get_movie_id (env : TMDBEnv) (title : String) : Except PyError (Option Nat) :=
  let response := env.searchResp title
  if response.status ≠ 200 then
    Except.ok none
  else
    match response.results with
    | none => Except.error PyError.keyError
    | some [] => Except.error PyError.indexError
    | some (first :: _) =>
      match first.id with
      | none => Except.error PyError.keyError
      | some movie_id => Except.ok (some movie_id)

/-- `TMDB.get_streaming_platforms`. On a non-200 status it logs and returns
`[]`. Otherwise it evaluates
`response.json()["results"][self.country]["flatrate"]` and the list
comprehension `[platform["provider_name"] for platform in ...]` inside a
`try`/`except KeyError` that returns `[]`, so any missing key anywhere
yields `[]`. -/
def get_streaming_platforms (env : TMDBEnv) (movie_id : Nat) : List String :=
  let response := env.providersResp movie_id
  if response.status ≠ 200 then
    []
  else
    match response.results with
    | none => []
    | some dict =>
      match dict.lookup env.country with
      | none => []
      | some offers =>
        match offers.flatrate with
        | none => []
        | some platforms =>
          if platforms.all (fun p => p.provider_name.isSome) then
            platforms.filterMap (fun p => p.provider_name)
          else []

/-- `TMDB.get_movie`, instrumented with the list of movie ids for which
`get_streaming_platforms` was called (so that "no availability call" /
"exactly one availability call" is observable). If `get_movie_id` raised,
the exception propagates. -/
def get_movie (env : TMDBEnv) (title : String) :
    Except PyError (Movie × List Nat) :=
  match get_movie_id env title with
  | Except.error e => Except.error e
  | Except.ok none => Except.ok (⟨title, []⟩, [])
  | Except.ok (some movie_id) =>
    Except.ok (⟨title, get_streaming_platforms env movie_id⟩, [movie_id])

/-- A Letterboxd watchlist page, as both the HTTP response and its parsed
(`BeautifulSoup`) form: `status` is the HTTP status code, `headingCount`
is the entry count parsed from the `section-heading` element
(`none` models that parse raising, i.e. no heading or a malformed count),
and `posters` are the titles taken from the `img` alt attribute of each
`poster-container` element, in document order. -/
structure Page where
  status : Nat
  headingCount : Option Nat
  posters : List String
  deriving DecidableEq, Repr

/-- The Letterboxd network environment: the TMDB environment plus the page
each watchlist page number would return. -/
structure LbEnv where
  tmdb : TMDBEnv
  pageResp : Nat → Page

/-- `Letterboxd.get_page`: returns the page text (here: the page) on a 200
status, and logs and returns `None` otherwise. -/
def get_page (env : LbEnv) (page : Nat) : Option Page :=
  let response := env.pageResp page
  if response.status ≠ 200 then none else some response

/-- The page count computed in `Letterboxd.watchlist`:
`num_of_pages = movies_count // (7 * 4) + 1`. -/
def num_of_pages (movies_count : Nat) : Nat :=
  movies_count / (7 * 4) + 1

/-- The inner `for` loop of `Letterboxd.watchlist`: resolves each poster
title through `self.tmdb.get_movie`, appending to `self._watchlist`.
Returns the movies appended so far and the exception, if one was raised
mid-loop (movies resolved before the exception are already appended). -/
def resolveTitles (env : TMDBEnv) : List String → List Movie × Option PyError
  | [] => ([], none)
  | t :: ts =>
    match get_movie env t with
    | Except.error e => ([], some e)
    | Except.ok (m, _) =>
      let rest := resolveTitles env ts
      (m :: rest.1, rest.2)

/-- The outcome of one `Letterboxd.watchlist` computation: `acc` is the
final contents of `self._watchlist` (also the return value when no
exception was raised), `err` is the exception that aborted the run (if
any), and `pagesFetched` is the ordered list of page numbers passed to
`get_page` (the network-fetch trace). -/
structure WatchlistRun where
  acc : List Movie
  err : Option RunError
  pagesFetched : List Nat
  deriving DecidableEq, Repr

/-- The `while current_page <= num_of_pages` loop of `Letterboxd.watchlist`,
compiled to recursion over the list of loop-counter values
`remaining = [current_page, ..., num_of_pages]` (the loop body always
increments `current_page` by 1, so this list is exactly the values for
which the loop guard holds). Each iteration resolves the posters of the
current soup, then unconditionally fetches page `current_page + 1` and
parses it with `BeautifulSoup`; if that fetch returned `None`,
`BeautifulSoup(None, ...)` raises `TypeError`. Note the fetch of page
`current_page + 1` happens even on the last iteration. -/
def watchlistLoop (env : LbEnv) :
    List Nat → Page → List Movie → List Nat → WatchlistRun
  | [], _, acc, trace => ⟨acc, none, trace⟩
  | current_page :: rest, soup, acc, trace =>
    match resolveTitles env.tmdb soup.posters with
    | (ms, some e) => ⟨acc ++ ms, some (RunError.pyErr e), trace⟩
    | (ms, none) =>
      match get_page env (current_page + 1) with
      | none => ⟨acc ++ ms, some RunError.typeError, trace ++ [current_page + 1]⟩
      | some soup2 =>
        watchlistLoop env rest soup2 (acc ++ ms) (trace ++ [current_page + 1])

/-- The body of the `Letterboxd.watchlist` property (the computation run
when the memoized value is absent or falsy): sets `self._watchlist = []`,
fetches page 1 (returning `[]` if that fails), parses the count heading
(raising if it is malformed), computes the page count, and runs the page
loop from page 1. -/
def watchlist_body (env : LbEnv) : WatchlistRun :=
  match get_page env 1 with
  | none => ⟨[], none, [1]⟩
  | some soup =>
    match soup.headingCount with
    | none => ⟨[], some RunError.attributeError, [1]⟩
    | some movies_count =>
      watchlistLoop env (List.range' 1 (num_of_pages movies_count)) soup [] [1]

/-- The memoization state of one `Letterboxd` instance: the `_watchlist`
and `_summary` attributes (`none` models the attribute not existing). -/
structure LbState where
  _watchlist : Option (List Movie)
  _summary : Option String
  deriving DecidableEq, Repr

/-- The `Letterboxd.watchlist` property. The guard
`if _watchlist := getattr(self, "_watchlist", None):` takes the cached
value only when the attribute exists and is truthy (a non-empty list);
otherwise the body runs and `self._watchlist` ends up holding the
accumulated list (even when an exception aborted the body). A cache hit
performs no page fetch (`pagesFetched = []`). -/
def watchlist (env : LbEnv) (st : LbState) : WatchlistRun × LbState :=
  match st._watchlist with
  | some ws =>
    if ws.isEmpty then
      let run := watchlist_body env
      (run, { st with _watchlist := some run.acc })
    else
      (⟨ws, none, []⟩, st)
  | none =>
    let run := watchlist_body env
    (run, { st with _watchlist := some run.acc })

/-- The separator line `"*" * 50` used between per-movie sections. -/
def stars50 : String :=
  String.mk (List.replicate 50 (Char.ofNat 42))

/-- `Movie.__str__`: the per-movie rendering. `sorted(self.platforms)` is
Python's lexicographic string sort, modelled by `mergeSort` with `≤`. -/
def movieStr (m : Movie) : String :=
  if m.available then
    "Movie: " ++ m.title ++ "\n\n" ++ "Platforms \n---------- \n" ++
      String.intercalate "\n" (m.platforms.mergeSort (fun a b => a ≤ b))
  else
    "Movie: " ++ m.title ++ "\nNot available on any streaming platform"

/-- The flattened platform list built in `Letterboxd.summary`:
`[platform for movie in watchlist for platform in movie.platforms]`. -/
def platformsFlat (watchlist : List Movie) : List String :=
  watchlist.flatMap (fun movie => movie.platforms)

/-- The key order of `collections.Counter(platforms)`: a `Counter` is a
`dict`, so iteration order is insertion order, i.e. each distinct element
in order of first occurrence. -/
def counterKeys (platforms : List String) : List String :=
  platforms.foldl (fun acc a => if a ∈ acc then acc else acc ++ [a]) []

/-- `Counter(platforms).items()`: each distinct element in first-occurrence
order, paired with its number of occurrences. -/
def counterItems (platforms : List String) : List (String × Nat) :=
  (counterKeys platforms).map (fun k => (k, platforms.count k))

/-- The `_summary` string built by `Letterboxd.summary` from an already
computed watchlist: per-movie sections, then the platform-frequency
section. -/
def summaryOf (watchlist : List Movie) : String :=
  (watchlist.foldl (fun s m => s ++ movieStr m ++ "\n" ++ stars50 ++ "\n") "")
    ++ "Platforms summary \n----------\n"
    ++ ((counterItems (platformsFlat watchlist)).foldl
        (fun s pc => s ++ pc.1 ++ ": " ++ toString pc.2 ++ "\n") "")

/-- The body of `Letterboxd.summary` on a cache miss: accesses
`self.watchlist` (the memoized property), and — if that did not raise —
builds and caches the summary string. The result is the summary (or the
propagated exception) together with the page-fetch trace the access
caused, and the updated instance state. -/
def summary_body (env : LbEnv) (st : LbState) :
    (Except RunError String × List Nat) × LbState :=
  let ws := watchlist env st
  match ws.1.err with
  | some e => ((Except.error e, ws.1.pagesFetched), ws.2)
  | none =>
    let s := summaryOf ws.1.acc
    ((Except.ok s, ws.1.pagesFetched), { ws.2 with _summary := some s })

/-- The memoization guard of `Letterboxd.summary`:
`if _summary := getattr(self, "_summary", None):` takes the cached value
only when the attribute exists and is truthy (a non-empty string);
otherwise `summary_body` runs. -/
def summary (env : LbEnv) (st : LbState) :
    (Except RunError String × List Nat) × LbState :=
  match st._summary with
  | some s =>
    if s.isEmpty then summary_body env st else ((Except.ok s, []), st)
  | none => summary_body env st

/-! Concrete environments used as witnesses and counterexamples. -/

/-- A TMDB environment in which every request returns a 404. -/
def tmdb404 : TMDBEnv :=
  ⟨"PL", fun _ => ⟨404, none⟩, fun _ => ⟨404, none⟩⟩

/-- A TMDB environment whose search succeeds with an empty results list. -/
def tmdbEmptyResults : TMDBEnv :=
  ⟨"PL", fun _ => ⟨200, some []⟩, fun _ => ⟨404, none⟩⟩

/-- A TMDB environment whose search succeeds but the body lacks the
`"results"` key. -/
def tmdbNoResultsKey : TMDBEnv :=
  ⟨"PL", fun _ => ⟨200, none⟩, fun _ => ⟨404, none⟩⟩

/-- A TMDB environment whose search succeeds with one result lacking the
`"id"` key. -/
def tmdbNoId : TMDBEnv :=
  ⟨"PL", fun _ => ⟨200, some [⟨none⟩]⟩, fun _ => ⟨404, none⟩⟩

/-- A TMDB environment whose search resolves every title to id 7 and whose
watch-providers response lists `Netflix` twice under `PL`/`flatrate`. -/
def tmdbDup : TMDBEnv :=
  ⟨"PL", fun _ => ⟨200, some [⟨some 7⟩]⟩,
    fun _ => ⟨200, some [("PL", ⟨some [⟨some "Netflix"⟩, ⟨some "Netflix"⟩]⟩)]⟩⟩

/-- A Letterboxd environment in which every page fetch succeeds, the
heading reports 0 films, and there are no posters. -/
def lbAllOk : LbEnv :=
  ⟨tmdb404, fun _ => ⟨200, some 0, []⟩⟩

/-- A Letterboxd environment whose page 1 succeeds (0 films, one poster)
but every later page returns a 404. -/
def lbLater404 : LbEnv :=
  ⟨tmdb404, fun p => if p = 1 then ⟨200, some 0, ["T1"]⟩ else ⟨404, none, []⟩⟩

/-- A Letterboxd environment in which every page fetch returns a 404. -/
def lbFirst404 : LbEnv :=
  ⟨tmdb404, fun _ => ⟨404, none, []⟩⟩

/-- A fresh `Letterboxd` instance state: neither `_watchlist` nor
`_summary` exists yet. -/
def freshState : LbState :=
  ⟨none, none⟩

/-! Claim theorems. -/

/-- C7: for every non-negative entry count `n`, the page count computed by
`Letterboxd.watchlist` equals `floor(n / 28) + 1`; in particular 0 entries
give 1 page, 28 give 2, 29 give 2, and 56 give 3. -/
theorem C7_page_count_formula :
    (∀ n : Nat, num_of_pages n = n / 28 + 1) ∧
    num_of_pages 0 = 1 ∧ num_of_pages 28 = 2 ∧
    num_of_pages 29 = 2 ∧ num_of_pages 56 = 3 :=
  ⟨fun _ => rfl, rfl, rfl, rfl, rfl⟩

/-- C10: whenever `TMDB.get_movie` returns a `Movie`, its `title` field is
exactly the input title string, unchanged, on both the resolved and the
unresolved path. -/
theorem C10_title_unchanged (env : TMDBEnv) (t : String) (m : Movie)
    (calls : List Nat) (h : get_movie env t = Except.ok (m, calls)) :
    m.title = t := by
  unfold get_movie at h
  cases hid : get_movie_id env t with
  | error e => rw [hid] at h; exact absurd h (by simp)
  | ok v =>
    rw [hid] at h
    cases v with
    | none => simp only [Except.ok.injEq, Prod.mk.injEq] at h; rw [← h.1]
    | some i => simp only [Except.ok.injEq, Prod.mk.injEq] at h; rw [← h.1]

/-- C10 witness: evaluated on the all-404 environment at the title `"x"`. -/
theorem C10_witness :
    get_movie tmdb404 "x" = Except.ok (⟨"x", []⟩, []) ∧
    (Movie.mk "x" [] : Movie).title = "x" :=
  ⟨rfl, C10_title_unchanged tmdb404 "x" ⟨"x", []⟩ [] rfl⟩

/-- C8: if `TMDB.get_movie_id` returned `None`, `TMDB.get_movie` returns a
`Movie` with the given title and empty platforms and makes no
`get_streaming_platforms` call (empty call trace); if it returned an id,
`get_movie` makes exactly one `get_streaming_platforms` call, for that id,
and wraps its result in a `Movie`. -/
theorem C8_short_circuit (env : TMDBEnv) (title : String) :
    (get_movie_id env title = Except.ok none →
      get_movie env title = Except.ok (⟨title, []⟩, [])) ∧
    (∀ i, get_movie_id env title = Except.ok (some i) →
      get_movie env title =
        Except.ok (⟨title, get_streaming_platforms env i⟩, [i])) := by
  constructor
  · intro h; unfold get_movie; rw [h]
  · intro i h; unfold get_movie; rw [h]

/-- C8 witness: the unresolved branch on the all-404 environment makes no
availability call; the resolved branch on `tmdbDup` (id 7) makes exactly
the call for id 7 and wraps its result. -/
theorem C8_witness :
    get_movie tmdb404 "x" = Except.ok (⟨"x", []⟩, []) ∧
    get_movie tmdbDup "x" =
      Except.ok (⟨"x", get_streaming_platforms tmdbDup 7⟩, [7]) :=
  ⟨(C8_short_circuit tmdb404 "x").1 rfl,
   (C8_short_circuit tmdbDup "x").2 7 rfl⟩

/-- C1 counterexample: on a search response with HTTP status 200 and an
empty result list, `TMDB.get_movie_id` raises `IndexError` instead of
returning an absent result, so the claim "returns an absent result and
does not raise whenever ... the result list is empty" is false. -/
theorem C1_counterexample :
    (tmdbEmptyResults.searchResp "Some Movie").status = 200 ∧
    (tmdbEmptyResults.searchResp "Some Movie").results = some [] ∧
    get_movie_id tmdbEmptyResults "Some Movie" =
      Except.error PyError.indexError ∧
    Except.error PyError.indexError ≠
      (Except.ok none : Except PyError (Option Nat)) :=
  ⟨rfl, rfl, rfl, by simp⟩

/-- C1 (amended): `TMDB.get_movie_id` returns an absent result (without
raising) on a non-success HTTP status; on a success status it raises
`KeyError` when the `results` key is missing, raises `IndexError` when the
result list is empty, raises `KeyError` when the first result lacks the
`id` field, and returns the identifier of the first result otherwise. -/
theorem C1_get_movie_id_branches (env : TMDBEnv) (title : String) :
    ((env.searchResp title).status ≠ 200 →
      get_movie_id env title = Except.ok none) ∧
    ((env.searchResp title).status = 200 →
      (env.searchResp title).results = none →
      get_movie_id env title = Except.error PyError.keyError) ∧
    ((env.searchResp title).status = 200 →
      (env.searchResp title).results = some [] →
      get_movie_id env title = Except.error PyError.indexError) ∧
    (∀ first rest, (env.searchResp title).status = 200 →
      (env.searchResp title).results = some (first :: rest) →
      first.id = none →
      get_movie_id env title = Except.error PyError.keyError) ∧
    (∀ first rest i, (env.searchResp title).status = 200 →
      (env.searchResp title).results = some (first :: rest) →
      first.id = some i →
      get_movie_id env title = Except.ok (some i)) := by
  refine ⟨fun h => ?_, fun h1 h2 => ?_, fun h1 h2 => ?_,
    fun first rest h1 h2 h3 => ?_, fun first rest i h1 h2 h3 => ?_⟩ <;>
    unfold get_movie_id <;> simp_all

/-- C1 witness: the five branches evaluated on concrete environments — a
404 search, a 200 body without `results`, a 200 body with an empty result
list, a 200 body whose first result lacks `id`, and a 200 body whose first
result has id 7. -/
theorem C1_witness :
    get_movie_id tmdb404 "x" = Except.ok none ∧
    get_movie_id tmdbNoResultsKey "x" = Except.error PyError.keyError ∧
    get_movie_id tmdbEmptyResults "x" = Except.error PyError.indexError ∧
    get_movie_id tmdbNoId "x" = Except.error PyError.keyError ∧
    get_movie_id tmdbDup "x" = Except.ok (some 7) :=
  ⟨(C1_get_movie_id_branches tmdb404 "x").1 (by decide),
   (C1_get_movie_id_branches tmdbNoResultsKey "x").2.1 rfl rfl,
   (C1_get_movie_id_branches tmdbEmptyResults "x").2.2.1 rfl rfl,
   (C1_get_movie_id_branches tmdbNoId "x").2.2.2.1 ⟨none⟩ [] rfl rfl rfl,
   (C1_get_movie_id_branches tmdbDup "x").2.2.2.2 ⟨some 7⟩ [] 7 rfl rfl rfl⟩

/-- Helper: `filterMap` drops nothing when every element maps to `some`. -/
theorem length_filterMap_of_isSome {α β : Type} (f : α → Option β) :
    ∀ l : List α, (∀ a ∈ l, (f a).isSome) →
      (l.filterMap f).length = l.length
  | [], _ => rfl
  | a :: l, h => by
    have ha : (f a).isSome := h a (List.mem_cons_self a l)
    cases hfa : f a with
    | none => rw [hfa] at ha; simp at ha
    | some b =>
      simp only [List.filterMap_cons, hfa, List.length_cons]
      rw [length_filterMap_of_isSome f l (fun x hx => h x (List.mem_cons_of_mem a hx))]

/-- C9 counterexample: an availability response whose `flatrate` list
names `Netflix` twice makes `TMDB.get_streaming_platforms` return
`["Netflix", "Netflix"]` — a collection containing the same provider name
more than once — and that movie is reachable through `TMDB.get_movie`. -/
theorem C9_counterexample :
    get_movie tmdbDup "A" =
      Except.ok (⟨"A", ["Netflix", "Netflix"]⟩, [7]) ∧
    ¬ (["Netflix", "Netflix"] : List String).Nodup :=
  ⟨rfl, by simp⟩

/-- C9 (amended): on a successful availability response,
`TMDB.get_streaming_platforms` returns the `provider_name` of each
`flatrate` entry in response order and with multiplicity (its length
equals the number of entries, so duplicate provider names are not
deduplicated); `Movie.available` does not depend on the order of the
platform names (it is invariant under permutation). -/
theorem C9_platforms_shape (env : TMDBEnv) (i : Nat) :
    (∀ dict offers platforms,
      (env.providersResp i).status = 200 →
      (env.providersResp i).results = some dict →
      dict.lookup env.country = some offers →
      offers.flatrate = some platforms →
      (∀ p ∈ platforms, p.provider_name.isSome) →
      get_streaming_platforms env i =
          platforms.filterMap (fun p => p.provider_name) ∧
        (get_streaming_platforms env i).length = platforms.length) ∧
    (∀ m₁ m₂ : Movie, m₁.platforms.Perm m₂.platforms →
      m₁.available = m₂.available) := by
  constructor
  · intro dict offers platforms h1 h2 h3 h4 h5
    have hall : platforms.all (fun p => p.provider_name.isSome) = true := by
      rw [List.all_eq_true]; exact h5
    have hres : get_streaming_platforms env i =
        platforms.filterMap (fun p => p.provider_name) := by
      unfold get_streaming_platforms
      simp only [h1, h2, h3, h4, hall, ne_eq, if_true, if_false]
      simp
    exact ⟨hres, by rw [hres]; exact length_filterMap_of_isSome _ _ h5⟩
  · intro m₁ m₂ h
    unfold Movie.available
    rw [h.length_eq]

/-- C9 witness: the shape clause evaluated on the duplicated-Netflix
environment (two entries, two names) and the order clause on two movies
whose platform lists are reverses of each other. -/
theorem C9_witness :
    (get_streaming_platforms tmdbDup 7 = ["Netflix", "Netflix"] ∧
      (get_streaming_platforms tmdbDup 7).length = 2) ∧
    (Movie.mk "A" ["a", "b"]).available = (Movie.mk "A" ["b", "a"]).available := by
  refine ⟨?_, ?_⟩
  · exact (C9_platforms_shape tmdbDup 7).1
      [("PL", ⟨some [⟨some "Netflix"⟩, ⟨some "Netflix"⟩]⟩)]
      ⟨some [⟨some "Netflix"⟩, ⟨some "Netflix"⟩]⟩
      [⟨some "Netflix"⟩, ⟨some "Netflix"⟩]
      rfl rfl rfl rfl (by decide)
  · exact (C9_platforms_shape tmdbDup 7).2
      ⟨"A", ["a", "b"]⟩ ⟨"A", ["b", "a"]⟩ (by decide)

/-- Helper: when every per-title resolution succeeds, the inner `for` loop
raises no exception. -/
theorem resolveTitles_no_err (env : TMDBEnv)
    (h : ∀ t, ∃ r, get_movie env t = Except.ok r) :
    ∀ ts, (resolveTitles env ts).2 = none
  | [] => rfl
  | t :: ts => by
    obtain ⟨⟨m, calls⟩, hr⟩ := h t
    simp only [resolveTitles, hr]
    exact resolveTitles_no_err env h ts

/-- Helper: a run of the page loop in which no per-title call raises and
every fetched page has a 200 status completes without exception, fetching
exactly the successor of each loop-counter value. -/
theorem watchlistLoop_clean (env : LbEnv)
    (hres : ∀ ts, (resolveTitles env.tmdb ts).2 = none) :
    ∀ remaining soup acc trace,
      (∀ p ∈ remaining, (env.pageResp (p + 1)).status = 200) →
      (watchlistLoop env remaining soup acc trace).err = none ∧
      (watchlistLoop env remaining soup acc trace).pagesFetched =
        trace ++ remaining.map (fun p => p + 1)
  | [], _, _, trace, _ => ⟨rfl, by simp [watchlistLoop]⟩
  | p :: rest, soup, acc, trace, hpg => by
    rcases hrt : resolveTitles env.tmdb soup.posters with ⟨ms, e⟩
    have he : e = none := by
      have h0 := hres soup.posters
      rw [hrt] at h0
      exact h0
    subst he
    have hp : get_page env (p + 1) = some (env.pageResp (p + 1)) := by
      unfold get_page
      simp [hpg p (List.mem_cons_self p rest)]
    simp only [watchlistLoop, hrt, hp, List.map_cons]
    have ih := watchlistLoop_clean env hres rest (env.pageResp (p + 1))
      (acc ++ ms) (trace ++ [p + 1])
      (fun q hq => hpg q (List.mem_cons_of_mem p hq))
    rw [ih.2]
    exact ⟨ih.1, by simp⟩

/-- C2 counterexample: in an environment where the first-page fetch
succeeds but page 2 returns a 404, the traversal aborts with a
`TypeError` (`BeautifulSoup(None, ...)`) and the final report is never
rendered — refuting "a transport/HTTP failure on any later page fetch ...
never aborts the run". -/
theorem C2_counterexample :
    (lbLater404.pageResp 1).status = 200 ∧
    (watchlist_body lbLater404).err = some RunError.typeError ∧
    (summary lbLater404 freshState).1.1 =
      Except.error RunError.typeError :=
  ⟨rfl, rfl, rfl⟩

/-- C2 (amended): a transport/HTTP failure on a per-title provider call is
downgraded at its call site — a failed search yields a `Movie` with empty
platforms and a failed availability call yields an empty platform list,
neither aborting the run — but a non-success status on a later page fetch
is not downgraded: `get_page` returns `None`, which is passed to
`BeautifulSoup` and raises `TypeError`, aborting the traversal. -/
theorem C2_failure_policy :
    (∀ (env : TMDBEnv) (t : String), (env.searchResp t).status ≠ 200 →
      get_movie env t = Except.ok (⟨t, []⟩, [])) ∧
    (∀ (env : TMDBEnv) (i : Nat), (env.providersResp i).status ≠ 200 →
      get_streaming_platforms env i = []) ∧
    (∀ (env : LbEnv) (current_page : Nat) (rest : List Nat) (soup : Page)
      (acc : List Movie) (trace : List Nat) (ms : List Movie),
      resolveTitles env.tmdb soup.posters = (ms, none) →
      (env.pageResp (current_page + 1)).status ≠ 200 →
      watchlistLoop env (current_page :: rest) soup acc trace =
        ⟨acc ++ ms, some RunError.typeError, trace ++ [current_page + 1]⟩) := by
  refine ⟨fun env t h => ?_, fun env i h => ?_,
    fun env current_page rest soup acc trace ms hrt h => ?_⟩
  · unfold get_movie get_movie_id
    simp [h]
  · unfold get_streaming_platforms
    simp [h]
  · have hp : get_page env (current_page + 1) = none := by
      unfold get_page; simp [h]
    simp [watchlistLoop, hrt, hp]

/-- C2 witness: a 404 search downgraded to an unavailable movie, a 404
availability call downgraded to no platforms, and a 404 on the page-2
fetch aborting the loop with a `TypeError`. -/
theorem C2_witness :
    get_movie tmdb404 "y" = Except.ok (⟨"y", []⟩, []) ∧
    get_streaming_platforms tmdb404 5 = [] ∧
    watchlistLoop lbLater404 [1] ⟨200, some 0, ["T1"]⟩ [] [1] =
      ⟨[⟨"T1", []⟩], some RunError.typeError, [1, 2]⟩ :=
  ⟨C2_failure_policy.1 tmdb404 "y" (by decide),
   C2_failure_policy.2.1 tmdb404 5 (by decide),
   C2_failure_policy.2.2 lbLater404 1 [] ⟨200, some 0, ["T1"]⟩ [] [1]
     [⟨"T1", []⟩] rfl (by decide)⟩

/-- C3 counterexample: with all fetches succeeding and an entry count of 0
(page count 1), the traversal fetches pages 1 and 2 — the fetch of page
`page_count + 1` is issued after the last page's items were processed, so
"pages fetched are exactly 1 through page_count" is false. -/
theorem C3_counterexample :
    num_of_pages 0 = 1 ∧
    (watchlist_body lbAllOk).pagesFetched = [1, 2] ∧
    ([1, 2] : List Nat) ≠ [1] :=
  ⟨rfl, rfl, by simp⟩

/-- C3 (amended): in a traversal in which page 1 succeeds, every page
fetch succeeds and no per-title call raises, the pages fetched are exactly
1 through `page_count + 1` inclusive: after the items of the last page are
processed, one further page fetch (page `page_count + 1`) is still
issued. -/
theorem C3_pages_fetched (env : LbEnv) (movies_count : Nat)
    (h1 : (env.pageResp 1).status = 200)
    (h2 : (env.pageResp 1).headingCount = some movies_count)
    (hres : ∀ t, ∃ r, get_movie env.tmdb t = Except.ok r)
    (hpg : ∀ p, (env.pageResp p).status = 200) :
    (watchlist_body env).err = none ∧
    (watchlist_body env).pagesFetched =
      List.range' 1 (num_of_pages movies_count + 1) := by
  have hp1 : get_page env 1 = some (env.pageResp 1) := by
    unfold get_page; simp [h1]
  unfold watchlist_body
  rw [hp1]
  simp only [h2]
  have hclean := watchlistLoop_clean env
    (resolveTitles_no_err env.tmdb hres)
    (List.range' 1 (num_of_pages movies_count)) (env.pageResp 1) [] [1]
    (fun p _ => hpg (p + 1))
  refine ⟨hclean.1, ?_⟩
  rw [hclean.2]
  have hmap : (List.range' 1 (num_of_pages movies_count)).map (fun p => p + 1) =
      List.range' 2 (num_of_pages movies_count) := by
    have := List.map_add_range' 1 1 (num_of_pages movies_count) 1
    simpa [Nat.add_comm] using this
  rw [hmap, List.range'_succ]
  simp

/-- C3 witness: the all-success environment with entry count 0 fetches
pages 1 and 2 and finishes without exception. -/
theorem C3_witness :
    (watchlist_body lbAllOk).err = none ∧
    (watchlist_body lbAllOk).pagesFetched = [1, 2] :=
  C3_pages_fetched lbAllOk 0 rfl rfl
    (fun t => ⟨(⟨t, []⟩, []), rfl⟩) (fun _ => rfl)

/-- Helper: a summary string always contains the platforms-summary header,
so it is never the empty string. -/
theorem summaryOf_ne_empty (ws : List Movie) : summaryOf ws ≠ "" := by
  intro h
  have hlen := congrArg String.length h
  rw [summaryOf, String.length_append, String.length_append] at hlen
  have h30 : ("Platforms summary \n----------\n" : String).length = 30 := rfl
  have h0 : ("" : String).length = 0 := rfl
  rw [h30, h0] at hlen
  omega

/-- C5 counterexample: when every page fetch fails, the summary is not the
empty string — it is the platforms-summary header with no title sections
and no counts — so "the summary is empty" is false. -/
theorem C5_counterexample :
    (summary lbFirst404 freshState).1.1 =
      Except.ok "Platforms summary \n----------\n" ∧
    "Platforms summary \n----------\n" ≠ "" :=
  ⟨rfl, by decide⟩

/-- C5 (amended): when the fetch of page 1 yields a non-success status,
the watchlist is the empty sequence, no fetch of page 2 or later is
attempted (the only page fetched is page 1), and the summary of a fresh
instance is the fixed platforms-summary header — containing no per-title
section and no platform count, but not the empty string. -/
theorem C5_first_page_failure (env : LbEnv)
    (h : (env.pageResp 1).status ≠ 200) :
    watchlist_body env = ⟨[], none, [1]⟩ ∧
    (summary env freshState).1 =
      (Except.ok "Platforms summary \n----------\n", [1]) := by
  have hp : get_page env 1 = none := by
    unfold get_page; simp [h]
  have hb : watchlist_body env = ⟨[], none, [1]⟩ := by
    unfold watchlist_body; rw [hp]
  refine ⟨hb, ?_⟩
  unfold summary freshState summary_body watchlist
  simp only [hb]
  rfl

/-- C5 witness: evaluated on the environment whose every page fetch
returns a 404. -/
theorem C5_witness :
    watchlist_body lbFirst404 = ⟨[], none, [1]⟩ ∧
    (summary lbFirst404 freshState).1 =
      (Except.ok "Platforms summary \n----------\n", [1]) :=
  C5_first_page_failure lbFirst404 (by decide)

/-- C4 counterexample: after a first access that produced an empty
watchlist (page 1 returned a 404), `_watchlist` holds `[]`, which is
falsy, so a second access of the `watchlist` property recomputes and
fetches page 1 again — refuting "any second access returns the cached
value without recomputation (and without issuing any further network
fetches)". -/
theorem C4_counterexample :
    (watchlist lbFirst404 freshState).2 = ⟨some [], none⟩ ∧
    (watchlist lbFirst404 ⟨some [], none⟩).1.pagesFetched = [1] ∧
    ([1] : List Nat) ≠ [] :=
  ⟨rfl, rfl, by simp⟩

/-- C4 (amended): the memoization guards are truthiness tests, so a cached
value is returned — with no recomputation and no network fetch — only when
it is truthy: a non-empty cached watchlist and a non-empty cached summary
are returned as-is with an empty fetch trace and unchanged state. A
computed summary string is never empty (it always contains the header), so
the summary really is computed at most once; an empty cached watchlist,
however, is recomputed on every access. -/
theorem C4_memoization (env : LbEnv) (st : LbState) :
    (∀ ws : List Movie, st._watchlist = some ws → ws ≠ [] →
      watchlist env st = (⟨ws, none, []⟩, st)) ∧
    (∀ s : String, st._summary = some s → s ≠ "" →
      summary env st = ((Except.ok s, []), st)) ∧
    (∀ ws : List Movie, summaryOf ws ≠ "") := by
  refine ⟨fun ws hst hw => ?_, fun s hst hs => ?_, summaryOf_ne_empty⟩
  · unfold watchlist
    rw [hst]
    cases ws with
    | nil => exact absurd rfl hw
    | cons m ms => rfl
  · unfold summary
    rw [hst]
    have hse : s.isEmpty = false := by
      cases hse : s.isEmpty
      · rfl
      · exact absurd ((String.isEmpty_iff s).mp hse) hs
    simp only [hse]
    rfl

/-- C4 witness: a non-empty cached watchlist and a non-empty cached
summary are both returned unchanged with no page fetch, and the summary of
the empty watchlist is non-empty. -/
theorem C4_witness :
    watchlist lbFirst404 ⟨some [⟨"A", []⟩], none⟩ =
      (⟨[⟨"A", []⟩], none, []⟩, ⟨some [⟨"A", []⟩], none⟩) ∧
    summary lbFirst404 ⟨none, some "cached"⟩ =
      ((Except.ok "cached", []), ⟨none, some "cached"⟩) ∧
    summaryOf [] ≠ "" :=
  ⟨(C4_memoization lbFirst404 ⟨some [⟨"A", []⟩], none⟩).1 [⟨"A", []⟩] rfl
      (by simp),
   (C4_memoization lbFirst404 ⟨none, some "cached"⟩).2.1 "cached" rfl
      (by simp),
   (C4_memoization lbFirst404 freshState).2.2 []⟩

/-- Helper: appending one element to the scanned list either leaves the
counter keys unchanged (seen element) or appends it at the end. -/
theorem counterKeys_append_singleton (l : List String) (a : String) :
    counterKeys (l ++ [a]) =
      if a ∈ counterKeys l then counterKeys l else counterKeys l ++ [a] := by
  unfold counterKeys
  rw [List.foldl_append]
  rfl

/-- Helper: the counter keys are exactly the elements of the scanned
list. -/
theorem counterKeys_mem (l : List String) :
    ∀ p : String, p ∈ counterKeys l ↔ p ∈ l := by
  induction l using List.reverseRecOn with
  | nil => intro p; simp [counterKeys]
  | append_singleton l a ih =>
    intro p
    rw [counterKeys_append_singleton]
    by_cases h : a ∈ counterKeys l
    · rw [if_pos h, ih p]
      have ha : a ∈ l := (ih a).mp h
      simp only [List.mem_append, List.mem_singleton]
      constructor
      · exact Or.inl
      · rintro (hp | rfl)
        · exact hp
        · exact ha
    · rw [if_neg h]
      simp [ih]

/-- Helper: the counter keys contain no duplicates. -/
theorem counterKeys_nodup (l : List String) : (counterKeys l).Nodup := by
  induction l using List.reverseRecOn with
  | nil => simp [counterKeys]
  | append_singleton l a ih =>
    rw [counterKeys_append_singleton]
    by_cases h : a ∈ counterKeys l
    · rw [if_pos h]; exact ih
    · rw [if_neg h]
      exact List.Nodup.append ih (List.nodup_singleton a) (by simp [h])

/-- Helper: the counter keys are ordered by first occurrence in the
scanned list: an earlier key first occurs strictly earlier. -/
theorem counterKeys_pairwise (l : List String) :
    (counterKeys l).Pairwise (fun a b => l.indexOf a < l.indexOf b) := by
  induction l using List.reverseRecOn with
  | nil => simp [counterKeys]
  | append_singleton l a ih =>
    have hlift : ∀ {x y : String}, x ∈ counterKeys l → y ∈ counterKeys l →
        l.indexOf x < l.indexOf y →
        (l ++ [a]).indexOf x < (l ++ [a]).indexOf y := by
      intro x y hx hy hxy
      rw [List.indexOf_append_of_mem ((counterKeys_mem l x).mp hx),
        List.indexOf_append_of_mem ((counterKeys_mem l y).mp hy)]
      exact hxy
    rw [counterKeys_append_singleton]
    by_cases h : a ∈ counterKeys l
    · rw [if_pos h]
      exact ih.imp_of_mem hlift
    · rw [if_neg h]
      rw [List.pairwise_append]
      refine ⟨ih.imp_of_mem hlift, List.pairwise_singleton _ a, ?_⟩
      intro x hx b hb
      rw [List.mem_singleton] at hb
      rw [hb]
      have hxl : x ∈ l := (counterKeys_mem l x).mp hx
      have hal : a ∉ l := fun hal => h ((counterKeys_mem l a).mpr hal)
      rw [List.indexOf_append_of_mem hxl, List.indexOf_append_of_not_mem hal]
      exact Nat.lt_of_lt_of_le (List.indexOf_lt_length.mpr hxl)
        (Nat.le_add_right _ _)

/-- C6 counterexample: the duplicated-Netflix environment resolves a title
to a `Movie` whose platform list carries `Netflix` twice; for the
resulting one-movie sequence the summary counter reports `Netflix: 2`
although only 1 title carries it, so "each platform's count is the number
of titles carrying it" is false. -/
theorem C6_counterexample :
    get_movie tmdbDup "A" =
      Except.ok (⟨"A", ["Netflix", "Netflix"]⟩, [7]) ∧
    counterItems (platformsFlat [⟨"A", ["Netflix", "Netflix"]⟩]) =
      [("Netflix", 2)] ∧
    (([⟨"A", ["Netflix", "Netflix"]⟩] : List Movie).filter
      (fun m => "Netflix" ∈ m.platforms)).length = 1 ∧
    (2 : Nat) ≠ 1 :=
  ⟨rfl, rfl, rfl, by simp⟩

/-- C6 (amended): the summary's per-platform counts are the multiset union
of the titles' platform collections — each platform's count is its total
number of occurrences across all titles, which equals the number of titles
carrying it whenever every title's platform collection is duplicate-free —
this count mapping is invariant under permutation of the title sequence,
and the counter lists each distinct platform exactly once, in order of
first occurrence in the flattened platform list. -/
theorem C6_summary_counts :
    (∀ (ws : List Movie) (p : String),
      (platformsFlat ws).count p =
        (ws.map (fun m => m.platforms.count p)).sum) ∧
    (∀ ws₁ ws₂ : List Movie, ws₁.Perm ws₂ → ∀ p : String,
      (platformsFlat ws₁).count p = (platformsFlat ws₂).count p) ∧
    (∀ (ws : List Movie) (p : String), (∀ m ∈ ws, m.platforms.Nodup) →
      (platformsFlat ws).count p =
        (ws.filter (fun m => p ∈ m.platforms)).length) ∧
    (∀ l : List String, (counterKeys l).Nodup) ∧
    (∀ (l : List String) (p : String), p ∈ counterKeys l ↔ p ∈ l) ∧
    (∀ l : List String,
      (counterKeys l).Pairwise (fun a b => l.indexOf a < l.indexOf b)) ∧
    (∀ (l : List String) (p : String) (c : Nat),
      (p, c) ∈ counterItems l → p ∈ l ∧ c = l.count p) := by
  refine ⟨fun ws p => ?_, fun ws₁ ws₂ h p => ?_, fun ws p h => ?_,
    counterKeys_nodup, counterKeys_mem, counterKeys_pairwise,
    fun l p c hpc => ?_⟩
  · simpa [Function.comp] using
      List.count_flatMap ws (fun m => m.platforms) p
  · exact (List.Perm.flatMap_right (fun m => m.platforms) h).count_eq p
  · induction ws with
    | nil => rfl
    | cons m ms ih =>
      have hm : m.platforms.Nodup := h m (List.mem_cons_self m ms)
      have hms := ih (fun x hx => h x (List.mem_cons_of_mem m hx))
      simp only [platformsFlat, List.flatMap_cons, List.count_append,
        List.filter_cons] at *
      by_cases hp : p ∈ m.platforms
      · rw [List.count_eq_one_of_mem hm hp, hms]
        simp [hp, Nat.add_comm]
      · rw [List.count_eq_zero_of_not_mem hp, hms]
        simp [hp]
  · unfold counterItems at hpc
    obtain ⟨k, hk, hkeq⟩ := List.mem_map.mp hpc
    have h1 : p = k := (Prod.ext_iff.mp hkeq).1.symm
    have h2 : c = l.count k := (Prod.ext_iff.mp hkeq).2.symm
    rw [h1, h2]
    exact ⟨(counterKeys_mem l k).mp hk, rfl⟩

/-- C6 witness: evaluated on a two-movie sequence sharing the platform
`N`, its reversal, and the flattened list `["N", "H", "N"]`. -/
theorem C6_witness :
    (platformsFlat [⟨"A", ["N"]⟩, ⟨"B", ["N", "H"]⟩]).count "N" =
      (([⟨"A", ["N"]⟩, ⟨"B", ["N", "H"]⟩] : List Movie).map
        (fun m => m.platforms.count "N")).sum ∧
    (platformsFlat [⟨"A", ["N"]⟩, ⟨"B", ["N", "H"]⟩]).count "N" =
      (platformsFlat [⟨"B", ["N", "H"]⟩, ⟨"A", ["N"]⟩]).count "N" ∧
    (platformsFlat [⟨"A", ["N"]⟩, ⟨"B", ["N", "H"]⟩]).count "N" =
      (([⟨"A", ["N"]⟩, ⟨"B", ["N", "H"]⟩] : List Movie).filter
        (fun m => "N" ∈ m.platforms)).length ∧
    (counterKeys ["N", "H", "N"]).Nodup ∧
    ("H" ∈ counterKeys ["N", "H", "N"] ↔ "H" ∈ ["N", "H", "N"]) ∧
    (counterKeys ["N", "H", "N"]).Pairwise
      (fun a b => ["N", "H", "N"].indexOf a < ["N", "H", "N"].indexOf b) ∧
    ("N" ∈ ["N", "H", "N"] ∧ 2 = ["N", "H", "N"].count "N") :=
  ⟨C6_summary_counts.1 [⟨"A", ["N"]⟩, ⟨"B", ["N", "H"]⟩] "N",
   C6_summary_counts.2.1 [⟨"A", ["N"]⟩, ⟨"B", ["N", "H"]⟩]
     [⟨"B", ["N", "H"]⟩, ⟨"A", ["N"]⟩] (by decide) "N",
   C6_summary_counts.2.2.1 [⟨"A", ["N"]⟩, ⟨"B", ["N", "H"]⟩] "N" (by decide),
   C6_summary_counts.2.2.2.1 ["N", "H", "N"],
   C6_summary_counts.2.2.2.2.1 ["N", "H", "N"] "H",
   C6_summary_counts.2.2.2.2.2.1 ["N", "H", "N"],
   C6_summary_counts.2.2.2.2.2.2 ["N", "H", "N"] "N" 2 (by decide)⟩

end WTW
